import Mathlib

/-!
Verification of the clipsai request/input validation layer.

The two validator classes (`ClipInputValidator.check_valid_input_data` /
`impute_input_data_defaults` and
`TranscribeAndClipRequestValidator.check_valid_request_data` /
`impute_request_data_defaults`) are embedded directly from the source.
Python dictionaries are modelled as association lists of string keys and
dynamically typed values; a dictionary subscript on a missing key raises a
`KeyError`, modelled by an `Except` layer threaded through a state-passing
monad `PyM` (the state is the caller-supplied mapping, which the Python code
mutates in place during default imputation and only reads during validation).

The helper functions the validators call but whose source is not part of the
extract (the shared existence-and-type check, `check_valid_torch_device`,
and the two configuration managers) are modelled from the specification;
each such definition carries a doc comment starting `Modelled from the
spec:`.
-/


deriving instance DecidableEq for Except

/-- A Python runtime error surfaced by the embedded code.  The validators can
only raise `KeyError` (a dictionary subscript on a missing key). -/
inductive PyErr where
  | keyError : String → PyErr
deriving DecidableEq

/-- A dynamically typed Python value as used by the validators: strings,
ints, floats (modelled as rationals) and `None`. -/
inductive Value where
  | str : String → Value
  | int : Int → Value
  | float : Rat → Value
  | none : Value
deriving DecidableEq

/-- The Python type of a `Value`, as tested by `isinstance` in the
existence-and-type check. -/
inductive PyType where
  | pstr : PyType
  | pint : PyType
  | pfloat : PyType
  | pnone : PyType
deriving DecidableEq

def Value.typeOf : Value → PyType
  | .str _ => .pstr
  | .int _ => .pint
  | .float _ => .pfloat
  | .none => .pnone

def Value.toStr : Value → String
  | .str s => s
  | _ => ""

def Value.toInt : Value → Int
  | .int n => n
  | _ => 0

def Value.toRat : Value → Rat
  | .int n => (n : Rat)
  | .float q => q
  | _ => 0

/-- A Python `dict` with string keys, as an insertion-ordered association
list. -/
abbrev Dict := List (String × Value)

/-- Dictionary lookup: the binding of the first matching key. -/
def dlookup : Dict → String → Option Value
  | [], _ => Option.none
  | (k1, v) :: rest, k => if k1 = k then some v else dlookup rest k

/-- Python `key in d`. -/
def dcontains (d : Dict) (k : String) : Bool :=
  (dlookup d k).isSome

/-- Total lookup used by the pure configuration managers, defaulting to
`Value.none` (only ever reached after a presence check). -/
def dlookupD (d : Dict) (k : String) : Value :=
  (dlookup d k).getD Value.none

/-- Python `d[k] = v`: rebind the first occurrence of `k` in place, or append
a fresh binding at the end. -/
def dset : Dict → String → Value → Dict
  | [], k, v => [(k, v)]
  | (k1, v1) :: rest, k, v =>
      if k1 = k then (k, v) :: rest else (k1, v1) :: dset rest k v

/-- Python `s.endswith(suffixes)` on a dynamically typed value (the
validators only reach this after the value was type-checked as a string). -/
def pyEndsWith (v : Value) (suffixes : List String) : Bool :=
  match v with
  | .str s => suffixes.any (fun suf => List.isSuffixOf suf.data s.data)
  | _ => false

/-- The state-passing embedding of the Python methods: the state is the
caller-supplied dictionary, and a computation either raises a `PyErr` or
returns a result together with the final dictionary. -/
def PyM (α : Type) : Type :=
  Dict → Except PyErr (α × Dict)

def PyM.pure {α : Type} (a : α) : PyM α :=
  fun d => .ok (a, d)

def PyM.bind {α β : Type} (m : PyM α) (f : α → PyM β) : PyM β :=
  fun d =>
    match m d with
    | .error e => .error e
    | .ok (a, d1) => f a d1

instance : Monad PyM where
  pure := PyM.pure
  bind := PyM.bind

/-- Read the current dictionary (used where the Python passes `input_data`
to a helper wholesale). -/
def getDict : PyM Dict :=
  fun d => .ok (d, d)

/-- Python dictionary subscript read `d[k]`: raises `KeyError` when the key
is absent. -/
def dgetS (k : String) : PyM Value :=
  fun d =>
    match dlookup d k with
    | some v => .ok (v, d)
    | Option.none => .error (.keyError k)

/-- Python dictionary subscript assignment `d[k] = v`. -/
def dsetS (k : String) (v : Value) : PyM Unit :=
  fun d => .ok ((), dset d k v)

/-- Python `k in d` as a monadic read. -/
def dcontainsS (k : String) : PyM Bool :=
  fun d => .ok (dcontains d k, d)

/-- Modelled from the spec: the shared base-class existence-and-type check
(`check_input_data_existence_and_types` / `check_request_data_existence_and_types`,
whose source is not part of the extract), expressed as one function
parameterized by the field-specification table.  For every field in the
table, in order: if the field is absent, fail with a missing-field message
unless the accepted type-set includes the absent/null marker; if present,
fail unless its runtime type belongs to the accepted type-set.  Returns the
first failure, `none` if all fields pass. -/
def check_data_existence_and_types (d : Dict) :
    List (String × List PyType) → Option String
  | [] => Option.none
  | (k, tys) :: rest =>
    match dlookup d k with
    | Option.none =>
        if PyType.pnone ∈ tys then check_data_existence_and_types d rest
        else some ("missing field " ++ k)
    | some v =>
        if v.typeOf ∈ tys then check_data_existence_and_types d rest
        else some ("field " ++ k ++ " has invalid type")

/-- Modelled from the spec: accepted accelerator names for compute-device
identifiers (`"cpu"` or an accelerator name such as `"cuda"`, optionally
followed by a nonnegative integer index). -/
def accepted_accelerators : List String :=
  ["cpu", "cuda"]

/-- Split a character list on the colon character. -/
def splitOnColon : List Char → List (List Char)
  | [] => [[]]
  | c :: rest =>
    if c = ':' then [] :: splitOnColon rest
    else
      match splitOnColon rest with
      | [] => [[c]]
      | g :: gs => (c :: g) :: gs

/-- Modelled from the spec: `check_valid_torch_device` (source not part of
the extract).  Accepts device identifiers of the form `"cpu"` or an
accelerator name optionally followed by a nonnegative integer index;
rejects malformed syntax, unknown accelerator names, or non-numeric
indices with a message naming the offending value.  Pure, syntactic
validation only. -/
def check_valid_torch_device (device : String) : Option String :=
  match splitOnColon device.data with
  | [name] =>
      if (accepted_accelerators.map String.data).contains name then Option.none
      else some ("invalid compute device: " ++ device)
  | [name, idx] =>
      if (accepted_accelerators.map String.data).contains name
          ∧ idx ≠ [] ∧ idx.all Char.isDigit then Option.none
      else some ("invalid compute device: " ++ device)
  | _ => some ("invalid compute device: " ++ device)

/-- Modelled from the spec: the field-specification table of the text-tiling
configuration manager (every field the clip-finding subsystem requires). -/
def texttile_correct_types : List (String × List PyType) :=
  [("cutoff_policy", [.pstr]),
   ("embedding_aggregation_pool_method", [.pstr]),
   ("max_clip_duration_secs", [.pfloat, .pint]),
   ("min_clip_duration_secs", [.pfloat, .pint]),
   ("smoothing_width", [.pint]),
   ("window_compare_pool_method", [.pstr])]

/-- Modelled from the spec: the fixed accepted set of segmentation cutoff
policies. -/
def cutoff_policies : List String :=
  ["average", "high", "low"]

/-- Modelled from the spec: the fixed accepted set of pooling methods. -/
def pool_methods : List String :=
  ["mean", "max"]

/-- Modelled from the spec: `TextTileClipFinderConfigManager.check_valid_config`
(source not part of the extract).  Validates presence and type of every
required field, then the numeric ordering invariants (minimum duration ≤
maximum duration, smoothing width a nonnegative integer), then membership
of the enumerated-string fields in their fixed accepted sets; returns the
first violated constraint, `none` only if every field passes.  Pure. -/
def texttile_check_valid_config (config : Dict) : Option String :=
  match check_data_existence_and_types config texttile_correct_types with
  | some e => some e
  | Option.none =>
    if (dlookupD config "max_clip_duration_secs").toRat
        < (dlookupD config "min_clip_duration_secs").toRat then
      some "min_clip_duration_secs must be less than or equal to max_clip_duration_secs"
    else if (dlookupD config "smoothing_width").toInt < 0 then
      some "smoothing_width must be a non-negative integer"
    else if ¬ cutoff_policies.contains (dlookupD config "cutoff_policy").toStr then
      some "cutoff_policy must be one of: average, high, low"
    else if ¬ pool_methods.contains
        (dlookupD config "embedding_aggregation_pool_method").toStr then
      some "embedding_aggregation_pool_method must be one of: mean, max"
    else if ¬ pool_methods.contains
        (dlookupD config "window_compare_pool_method").toStr then
      some "window_compare_pool_method must be one of: mean, max"
    else Option.none

/-- Modelled from the spec: the field-specification table of the transcriber
configuration manager. -/
def whisperx_correct_types : List (String × List PyType) :=
  [("language", [.pstr]),
   ("model_size", [.pstr, .pnone]),
   ("precision", [.pstr, .pnone])]

/-- Modelled from the spec: the fixed accepted set of language codes. -/
def whisperx_languages : List String :=
  ["en", "es", "fr", "de"]

/-- Modelled from the spec: the fixed accepted set of whisper model sizes. -/
def whisperx_model_sizes : List String :=
  ["tiny", "base", "small", "medium", "large-v1", "large-v2"]

/-- Modelled from the spec: the fixed accepted set of numeric precisions. -/
def whisperx_precisions : List String :=
  ["float16", "float32", "int8"]

/-- Modelled from the spec: `WhisperXTranscriberConfigManager.check_valid_config`
(source not part of the extract).  Validates presence and type of the
language code, model size and numeric precision, then membership of each
enumerated-string field (when non-null) in its fixed accepted set; returns
the first violated constraint, `none` only if every field passes.  Pure. -/
def whisperx_check_valid_config (config : Dict) : Option String :=
  match check_data_existence_and_types config whisperx_correct_types with
  | some e => some e
  | Option.none =>
    if ¬ whisperx_languages.contains (dlookupD config "language").toStr then
      some "language must be one of the accepted language codes"
    else if dlookupD config "model_size" ≠ Value.none
        ∧ ¬ whisperx_model_sizes.contains (dlookupD config "model_size").toStr then
      some "model_size must be one of the accepted whisper model sizes"
    else if dlookupD config "precision" ≠ Value.none
        ∧ ¬ whisperx_precisions.contains (dlookupD config "precision").toStr then
      some "precision must be one of the accepted precisions"
    else Option.none

/-- The `correct_types` table of `ClipInputValidator.check_valid_input_data`,
in source order. -/
def input_correct_types : List (String × List PyType) :=
  [("mediaFilePath", [.pstr]),
   ("computeDevice", [.pstr, .pnone]),
   ("cutoffPolicy", [.pstr]),
   ("embeddingAggregationPoolMethod", [.pstr]),
   ("minClipTime", [.pfloat, .pint]),
   ("maxClipTime", [.pfloat, .pint]),
   ("smoothingWidth", [.pint]),
   ("windowComparePoolMethod", [.pstr])]

/-- The `correct_types` table of
`TranscribeAndClipRequestValidator.check_valid_request_data`, in source
order. -/
def request_correct_types : List (String × List PyType) :=
  [("mediaFilePath", [.pstr]),
   ("computeDevice", [.pstr, .pnone]),
   ("precision", [.pstr, .pnone]),
   ("languageCode", [.pstr]),
   ("whisperModelSize", [.pstr, .pnone]),
   ("cutoffPolicy", [.pstr]),
   ("embeddingAggregationPoolMethod", [.pstr]),
   ("minClipTime", [.pfloat, .pint]),
   ("maxClipTime", [.pfloat, .pint]),
   ("smoothingWidth", [.pint]),
   ("windowComparePoolMethod", [.pstr])]

/-- The `texttile_config` dictionary literal built by
`check_valid_input_data` (reads in source order). -/
def build_texttile_config_input : PyM Dict := do
  let cutoff ← dgetS "cutoffPolicy"
  let emb ← dgetS "embeddingAggregationPoolMethod"
  let mx ← dgetS "maxClipTime"
  let mn ← dgetS "minClipTime"
  let sw ← dgetS "smoothingWidth"
  let win ← dgetS "windowComparePoolMethod"
  pure [("cutoff_policy", cutoff),
        ("embedding_aggregation_pool_method", emb),
        ("max_clip_duration_secs", mx),
        ("min_clip_duration_secs", mn),
        ("smoothing_width", sw),
        ("window_compare_pool_method", win)]

/-- The `texttile_config` dictionary literal built by
`check_valid_request_data` (reads in source order). -/
def build_texttile_config_request : PyM Dict := do
  let cutoff ← dgetS "cutoffPolicy"
  let emb ← dgetS "embeddingAggregationPoolMethod"
  let mx ← dgetS "maxClipTime"
  let mn ← dgetS "minClipTime"
  let sw ← dgetS "smoothingWidth"
  let win ← dgetS "windowComparePoolMethod"
  pure [("cutoff_policy", cutoff),
        ("embedding_aggregation_pool_method", emb),
        ("max_clip_duration_secs", mx),
        ("min_clip_duration_secs", mn),
        ("smoothing_width", sw),
        ("window_compare_pool_method", win)]

/-- The `whisperx_config` dictionary literal built by
`check_valid_request_data` (reads in source order). -/
def build_whisperx_config_request : PyM Dict := do
  let lang ← dgetS "languageCode"
  let size ← dgetS "whisperModelSize"
  let prec ← dgetS "precision"
  pure [("language", lang),
        ("model_size", size),
        ("precision", prec)]

/-- `ClipInputValidator.check_valid_input_data`, embedded from the source:
existence-and-type check, file-extension check, compute-device check (only
when the field is non-null), then the text-tiling configuration check; the
first non-`none` error is returned immediately. -/
def check_valid_input_data : PyM (Option String) := do
  let d ← getDict
  match check_data_existence_and_types d input_correct_types with
  | some error => pure (some error)
  | Option.none => do
    let media_file_path ← dgetS "mediaFilePath"
    if pyEndsWith media_file_path [".mp3", ".mp4"] = false then
      pure (some ("mediaFilePath must be of type mp3 or mp4. Received: "
        ++ media_file_path.toStr))
    else do
      let cd ← dgetS "computeDevice"
      let deviceError ←
        (match cd with
         | Value.none => PyM.pure Option.none
         | _ => do
            let cd2 ← dgetS "computeDevice"
            PyM.pure (check_valid_torch_device cd2.toStr))
      match deviceError with
      | some error => pure (some error)
      | Option.none => do
        let texttile_config ← build_texttile_config_input
        match texttile_check_valid_config texttile_config with
        | some error => pure (some error)
        | Option.none => pure Option.none

/-- `TranscribeAndClipRequestValidator.check_valid_request_data`, embedded
from the source: existence-and-type check, file-extension check,
compute-device check (only when the field is non-null), the transcriber
configuration check, then the text-tiling configuration check; the first
non-`none` error is returned immediately. -/
def check_valid_request_data : PyM (Option String) := do
  let d ← getDict
  match check_data_existence_and_types d request_correct_types with
  | some error => pure (some error)
  | Option.none => do
    let media_file_path ← dgetS "mediaFilePath"
    if pyEndsWith media_file_path [".mp3", ".mp4"] = false then
      pure (some ("mediaFilePath must be of type mp3 or mp4. Received: "
        ++ media_file_path.toStr))
    else do
      let cd ← dgetS "computeDevice"
      let deviceError ←
        (match cd with
         | Value.none => PyM.pure Option.none
         | _ => do
            let cd2 ← dgetS "computeDevice"
            PyM.pure (check_valid_torch_device cd2.toStr))
      match deviceError with
      | some error => pure (some error)
      | Option.none => do
        let whisperx_config ← build_whisperx_config_request
        match whisperx_check_valid_config whisperx_config with
        | some error => pure (some error)
        | Option.none => do
          let texttile_config ← build_texttile_config_request
          match texttile_check_valid_config texttile_config with
          | some error => pure (some error)
          | Option.none => pure Option.none

/-- The `optional_fields_default_values` table of
`ClipInputValidator.impute_input_data_defaults`, in source order. -/
def input_defaults : List (String × Value) :=
  [("computeDevice", Value.none),
   ("cutoffPolicy", Value.str "high"),
   ("embeddingAggregationPoolMethod", Value.str "max"),
   ("minClipTime", Value.int 15),
   ("maxClipTime", Value.int 900),
   ("smoothingWidth", Value.int 3),
   ("windowComparePoolMethod", Value.str "mean")]

/-- The `optional_fields_default_values` table of
`TranscribeAndClipRequestValidator.impute_request_data_defaults`, in source
order. -/
def request_defaults : List (String × Value) :=
  [("computeDevice", Value.none),
   ("precision", Value.none),
   ("languageCode", Value.str "en"),
   ("whisperModelSize", Value.none),
   ("cutoffPolicy", Value.str "high"),
   ("embeddingAggregationPoolMethod", Value.str "max"),
   ("minClipTime", Value.int 15),
   ("maxClipTime", Value.int 900),
   ("smoothingWidth", Value.int 3),
   ("windowComparePoolMethod", Value.str "mean")]

/-- The imputation loop shared by both `impute_*_data_defaults` methods:
`for key in defaults.keys(): if key not in data: data[key] = defaults[key]`. -/
def imputeDefaults : List (String × Value) → Dict → Dict
  | [], d => d
  | (k, v) :: rest, d =>
      imputeDefaults rest (if dcontains d k then d else dset d k v)

/-- `ClipInputValidator.impute_input_data_defaults`, embedded from the
source (mutates the mapping in place and returns it). -/
def impute_input_data_defaults (d : Dict) : Dict :=
  imputeDefaults input_defaults d

/-- `TranscribeAndClipRequestValidator.impute_request_data_defaults`,
embedded from the source (mutates the mapping in place and returns it). -/
def impute_request_data_defaults (d : Dict) : Dict :=
  imputeDefaults request_defaults d

/-- Step 1 of both validators: the existence-and-type check over the full
type specification. -/
def step_types (table : List (String × List PyType)) : PyM (Option String) := do
  let d ← getDict
  pure (check_data_existence_and_types d table)

/-- Step 2 of both validators: the media-file-extension check. -/
def step_extension : PyM (Option String) := do
  let media_file_path ← dgetS "mediaFilePath"
  if pyEndsWith media_file_path [".mp3", ".mp4"] = false then
    pure (some ("mediaFilePath must be of type mp3 or mp4. Received: "
      ++ media_file_path.toStr))
  else pure Option.none

/-- Step 3 of both validators: the compute-device check, run only when the
`computeDevice` field is non-null. -/
def step_device : PyM (Option String) := do
  let cd ← dgetS "computeDevice"
  match cd with
  | Value.none => PyM.pure Option.none
  | _ => do
    let cd2 ← dgetS "computeDevice"
    PyM.pure (check_valid_torch_device cd2.toStr)

/-- Step 4 of the request validator: the transcriber configuration check. -/
def step_whisperx : PyM (Option String) := do
  let cfg ← build_whisperx_config_request
  pure (whisperx_check_valid_config cfg)

/-- Final step of the input validator: the clip-finder configuration
check. -/
def step_texttile_input : PyM (Option String) := do
  let cfg ← build_texttile_config_input
  pure (texttile_check_valid_config cfg)

/-- Final step of the request validator: the clip-finder configuration
check. -/
def step_texttile_request : PyM (Option String) := do
  let cfg ← build_texttile_config_request
  pure (texttile_check_valid_config cfg)

/-- Run a list of checks in order, returning the first non-`none` error
produced and running no later check; `none` only if every check passes. -/
def firstFailure : List (PyM (Option String)) → PyM (Option String)
  | [] => PyM.pure Option.none
  | s :: rest =>
    PyM.bind s (fun r =>
      match r with
      | some e => PyM.pure (some e)
      | Option.none => firstFailure rest)

/-- One step of running a `PyM` computation: dispatch on the result of the
first action. -/
def runStep {A B : Type} (r : Except PyErr (A × Dict)) (f : A → PyM B) :
    Except PyErr (B × Dict) :=
  match r with
  | .error e => .error e
  | .ok (a, d1) => f a d1

/-- A check step leaves the dictionary unchanged whenever it returns
normally. -/
def StepPreserves (s : PyM (Option String)) : Prop :=
  ∀ d r d1, s d = .ok (r, d1) → d1 = d

def clip_fields : List String :=
  ["cutoffPolicy", "embeddingAggregationPoolMethod", "minClipTime",
   "maxClipTime", "smoothingWidth", "windowComparePoolMethod"]

def sample_bad_ext_input : Dict :=
  [("mediaFilePath", Value.str "a.wav"),
   ("computeDevice", Value.none),
   ("cutoffPolicy", Value.str "high"),
   ("embeddingAggregationPoolMethod", Value.str "max"),
   ("minClipTime", Value.int 15),
   ("maxClipTime", Value.int 900),
   ("smoothingWidth", Value.int 3),
   ("windowComparePoolMethod", Value.str "mean")]

def sample_missing_device : Dict :=
  [("mediaFilePath", Value.str "a.mp3"),
   ("cutoffPolicy", Value.str "high"),
   ("embeddingAggregationPoolMethod", Value.str "max"),
   ("minClipTime", Value.int 15),
   ("maxClipTime", Value.int 900),
   ("smoothingWidth", Value.int 3),
   ("windowComparePoolMethod", Value.str "mean")]

def sample_missing_whisper_size : Dict :=
  [("mediaFilePath", Value.str "a.mp4"),
   ("computeDevice", Value.none),
   ("precision", Value.none),
   ("languageCode", Value.str "en"),
   ("cutoffPolicy", Value.str "high"),
   ("embeddingAggregationPoolMethod", Value.str "max"),
   ("minClipTime", Value.int 15),
   ("maxClipTime", Value.int 900),
   ("smoothingWidth", Value.int 3),
   ("windowComparePoolMethod", Value.str "mean")]

def sample_min_gt_max_input : Dict :=
  [("mediaFilePath", Value.str "a.mp3"),
   ("computeDevice", Value.none),
   ("cutoffPolicy", Value.str "high"),
   ("embeddingAggregationPoolMethod", Value.str "max"),
   ("minClipTime", Value.int 2000),
   ("maxClipTime", Value.int 900),
   ("smoothingWidth", Value.int 3),
   ("windowComparePoolMethod", Value.str "mean")]

lemma pyBind_def {A B : Type} (m : PyM A) (f : A → PyM B) : m >>= f = PyM.bind m f := rfl

lemma pyPure_def {A : Type} (a : A) : (pure a : PyM A) = PyM.pure a := rfl

lemma run_bind {A B : Type} (m : PyM A) (f : A → PyM B) (d : Dict) :
    PyM.bind m f d = runStep (m d) f := rfl

lemma run_pure {A : Type} (a : A) (d : Dict) : PyM.pure a d = .ok (a, d) := rfl

lemma run_getDict (d : Dict) : getDict d = .ok (d, d) := rfl

lemma ite_true_eq_false {A : Type} (a b : A) : (if true = false then a else b) = b := rfl

lemma ite_false_eq_false {A : Type} (a b : A) : (if false = false then a else b) = a := rfl

lemma input_validator_tail (d : Dict) :
    PyM.bind build_texttile_config_input
      (fun cfg =>
        match texttile_check_valid_config cfg with
        | some error => PyM.pure (some error)
        | Option.none => PyM.pure Option.none) d =
    PyM.bind step_texttile_input
      (fun r =>
        match r with
        | some error => PyM.pure (some error)
        | Option.none => firstFailure []) d := by
  simp only [build_texttile_config_input, step_texttile_input, firstFailure,
    pyBind_def, pyPure_def, run_bind, run_pure, runStep]
  cases h4 : dlookup d "cutoffPolicy" <;>
    simp only [run_bind, run_pure, runStep, dgetS, h4]
  cases h5 : dlookup d "embeddingAggregationPoolMethod" <;>
    simp only [run_bind, run_pure, runStep, dgetS, h5]
  cases h6 : dlookup d "maxClipTime" <;>
    simp only [run_bind, run_pure, runStep, dgetS, h6]
  cases h7 : dlookup d "minClipTime" <;>
    simp only [run_bind, run_pure, runStep, dgetS, h7]
  cases h8 : dlookup d "smoothingWidth" <;>
    simp only [run_bind, run_pure, runStep, dgetS, h8]
  cases h9 : dlookup d "windowComparePoolMethod" <;>
    simp only [run_bind, run_pure, runStep, dgetS, h9]

lemma check_input_eq_firstFailure (d : Dict) :
    check_valid_input_data d =
      firstFailure [step_types input_correct_types, step_extension,
        step_device, step_texttile_input] d := by
  simp only [check_valid_input_data, firstFailure, step_types, step_extension,
    step_device, step_texttile_input, pyBind_def, pyPure_def]
  simp only [run_bind, run_getDict, run_pure, runStep]
  cases h1 : check_data_existence_and_types d input_correct_types <;>
    simp only [h1]
  cases h2 : dlookup d "mediaFilePath" <;>
    simp only [run_bind, run_pure, runStep, dgetS, h2]
  rename_i v1
  cases hB : pyEndsWith v1 [".mp3", ".mp4"] <;>
    simp only [hB, ite_true_eq_false, ite_false_eq_false, run_bind, run_pure,
      runStep]
  case false => rfl
  cases h3 : dlookup d "computeDevice" <;>
    simp only [run_bind, run_pure, runStep, dgetS, h3]
  rename_i v2
  cases v2 <;>
    simp only [run_bind, run_pure, runStep, dgetS, h3]
  case none => exact input_validator_tail d
  case str =>
    rename_i a2
    cases hD : check_valid_torch_device (Value.str a2).toStr <;>
      simp only [run_bind, run_pure, runStep, hD]
    exact input_validator_tail d
  case int =>
    rename_i a2
    cases hD : check_valid_torch_device (Value.int a2).toStr <;>
      simp only [run_bind, run_pure, runStep, hD]
    exact input_validator_tail d
  case float =>
    rename_i a2
    cases hD : check_valid_torch_device (Value.float a2).toStr <;>
      simp only [run_bind, run_pure, runStep, hD]
    exact input_validator_tail d

lemma request_texttile_tail (d : Dict) :
    PyM.bind build_texttile_config_request
      (fun cfg =>
        match texttile_check_valid_config cfg with
        | some error => PyM.pure (some error)
        | Option.none => PyM.pure Option.none) d =
    PyM.bind step_texttile_request
      (fun r =>
        match r with
        | some error => PyM.pure (some error)
        | Option.none => firstFailure []) d := by
  simp only [build_texttile_config_request, step_texttile_request, firstFailure,
    pyBind_def, pyPure_def, run_bind, run_pure, runStep]
  cases h4 : dlookup d "cutoffPolicy" <;>
    simp only [run_bind, run_pure, runStep, dgetS, h4]
  cases h5 : dlookup d "embeddingAggregationPoolMethod" <;>
    simp only [run_bind, run_pure, runStep, dgetS, h5]
  cases h6 : dlookup d "maxClipTime" <;>
    simp only [run_bind, run_pure, runStep, dgetS, h6]
  cases h7 : dlookup d "minClipTime" <;>
    simp only [run_bind, run_pure, runStep, dgetS, h7]
  cases h8 : dlookup d "smoothingWidth" <;>
    simp only [run_bind, run_pure, runStep, dgetS, h8]
  cases h9 : dlookup d "windowComparePoolMethod" <;>
    simp only [run_bind, run_pure, runStep, dgetS, h9]

lemma request_validator_tail (d : Dict) :
    PyM.bind build_whisperx_config_request
      (fun wcfg =>
        match whisperx_check_valid_config wcfg with
        | some error => PyM.pure (some error)
        | Option.none =>
            PyM.bind build_texttile_config_request
              (fun cfg =>
                match texttile_check_valid_config cfg with
                | some error => PyM.pure (some error)
                | Option.none => PyM.pure Option.none)) d =
    PyM.bind step_whisperx
      (fun r =>
        match r with
        | some error => PyM.pure (some error)
        | Option.none => firstFailure [step_texttile_request]) d := by
  simp only [build_whisperx_config_request, step_whisperx, firstFailure,
    pyBind_def, pyPure_def, run_bind, run_pure, runStep]
  cases hL : dlookup d "languageCode" <;>
    simp only [run_bind, run_pure, runStep, dgetS, hL]
  cases hM : dlookup d "whisperModelSize" <;>
    simp only [run_bind, run_pure, runStep, dgetS, hM]
  cases hP : dlookup d "precision" <;>
    simp only [run_bind, run_pure, runStep, dgetS, hP]
  rename_i vl vm vp
  cases hW : whisperx_check_valid_config
      [("language", vl), ("model_size", vm), ("precision", vp)] <;>
    simp only [run_bind, run_pure, runStep, hW]
  exact request_texttile_tail d

lemma check_request_eq_firstFailure (d : Dict) :
    check_valid_request_data d =
      firstFailure [step_types request_correct_types, step_extension,
        step_device, step_whisperx, step_texttile_request] d := by
  simp only [check_valid_request_data, firstFailure, step_types, step_extension,
    step_device, pyBind_def, pyPure_def]
  simp only [run_bind, run_getDict, run_pure, runStep]
  cases h1 : check_data_existence_and_types d request_correct_types <;>
    simp only [h1]
  cases h2 : dlookup d "mediaFilePath" <;>
    simp only [run_bind, run_pure, runStep, dgetS, h2]
  rename_i v1
  cases hB : pyEndsWith v1 [".mp3", ".mp4"] <;>
    simp only [hB, ite_true_eq_false, ite_false_eq_false, run_bind, run_pure,
      runStep]
  case false => rfl
  cases h3 : dlookup d "computeDevice" <;>
    simp only [run_bind, run_pure, runStep, dgetS, h3]
  rename_i v2
  cases v2 <;>
    simp only [run_bind, run_pure, runStep, dgetS, h3]
  case none => exact request_validator_tail d
  case str =>
    rename_i a2
    cases hD : check_valid_torch_device (Value.str a2).toStr <;>
      simp only [run_bind, run_pure, runStep, hD]
    exact request_validator_tail d
  case int =>
    rename_i a2
    cases hD : check_valid_torch_device (Value.int a2).toStr <;>
      simp only [run_bind, run_pure, runStep, hD]
    exact request_validator_tail d
  case float =>
    rename_i a2
    cases hD : check_valid_torch_device (Value.float a2).toStr <;>
      simp only [run_bind, run_pure, runStep, hD]
    exact request_validator_tail d

lemma ite_cond_true {A : Type} (a b : A) : (if true = true then a else b) = a := rfl

lemma ite_cond_false {A : Type} (a b : A) : (if false = true then a else b) = b := rfl

lemma dcontains_iff {d : Dict} {k : String} :
    dcontains d k = true ↔ ∃ v, dlookup d k = some v := by
  simp [dcontains, Option.isSome_iff_exists]

lemma dset_of_not_contains {d : Dict} {k : String} (v : Value)
    (h : dcontains d k = false) : dset d k v = d ++ [(k, v)] := by
  induction d with
  | nil => rfl
  | cons p rest ih =>
    obtain ⟨k1, v1⟩ := p
    by_cases hk : k1 = k
    · subst hk
      simp [dcontains, dlookup] at h
    · simp only [dset, if_neg hk, List.cons_append, List.cons.injEq, true_and]
      apply ih
      simpa [dcontains, dlookup, hk] using h

lemma dcontains_dset {d : Dict} {k k1 : String} {v : Value} :
    dcontains (dset d k1 v) k = (dcontains d k || k1 == k) := by
  induction d with
  | nil =>
    by_cases hk : k1 = k <;> simp [dcontains, dset, dlookup, hk]
  | cons p rest ih =>
    obtain ⟨k2, v2⟩ := p
    by_cases h2 : k2 = k1
    · subst h2
      by_cases hk : k2 = k <;> simp [dcontains, dset, dlookup, hk]
    · by_cases hk : k2 = k
      · subst hk
        simp [dcontains, dset, dlookup, h2]
      · simpa [dcontains, dset, dlookup, hk, h2] using ih

lemma dcontains_append_single {d : Dict} {ka kb : String} {v : Value} :
    dcontains (d ++ [(ka, v)]) kb = (dcontains d kb || ka == kb) := by
  induction d with
  | nil =>
    by_cases hk : ka = kb <;> simp [dcontains, dlookup, hk]
  | cons p rest ih =>
    obtain ⟨k2, v2⟩ := p
    by_cases hk : k2 = kb
    · subst hk
      simp [dcontains, dlookup]
    · simpa [dcontains, dlookup, hk] using ih

lemma dlookup_dset_ne {d : Dict} {k k1 : String} (v : Value) (h : k1 ≠ k) :
    dlookup (dset d k1 v) k = dlookup d k := by
  induction d with
  | nil => simp [dset, dlookup, h]
  | cons p rest ih =>
    obtain ⟨k2, v2⟩ := p
    by_cases h2 : k2 = k1
    · subst h2
      by_cases hk : k2 = k
      · exact absurd hk h
      · simp [dset, dlookup, hk]
    · by_cases hk : k2 = k
      · subst hk
        simp [dset, dlookup, h2]
      · simp [dset, dlookup, hk, h2, ih]

lemma imputeDefaults_of_all_contains {defaults : List (String × Value)}
    {d : Dict} (h : ∀ p ∈ defaults, dcontains d p.1 = true) :
    imputeDefaults defaults d = d := by
  induction defaults with
  | nil => rfl
  | cons p rest ih =>
    obtain ⟨k, v⟩ := p
    have hk : dcontains d k = true := h (k, v) (by simp)
    simp only [imputeDefaults, hk, if_true]
    exact ih (fun q hq => h q (by simp [hq]))

lemma dcontains_imputeDefaults_mono {defaults : List (String × Value)}
    {d : Dict} {k : String} (h : dcontains d k = true) :
    dcontains (imputeDefaults defaults d) k = true := by
  induction defaults generalizing d with
  | nil => exact h
  | cons p rest ih =>
    obtain ⟨k1, v1⟩ := p
    simp only [imputeDefaults]
    by_cases hc : dcontains d k1
    · simp only [hc, if_true]
      exact ih h
    · simp only [hc, ite_cond_false]
      exact ih (by simp [dcontains_dset, h])

lemma dcontains_imputeDefaults_of_mem {defaults : List (String × Value)}
    {d : Dict} {k : String} (h : k ∈ defaults.map Prod.fst) :
    dcontains (imputeDefaults defaults d) k = true := by
  induction defaults generalizing d with
  | nil => simp at h
  | cons p rest ih =>
    obtain ⟨k1, v1⟩ := p
    simp only [List.map_cons, List.mem_cons] at h
    simp only [imputeDefaults]
    by_cases hc : dcontains d k1
    · simp only [hc, if_true]
      rcases h with h | h
      · subst h
        exact dcontains_imputeDefaults_mono hc
      · exact ih h
    · simp only [hc, ite_cond_false]
      rcases h with h | h
      · subst h
        exact dcontains_imputeDefaults_mono (by simp [dcontains_dset])
      · exact ih h

lemma dlookup_imputeDefaults_of_some {defaults : List (String × Value)}
    {d : Dict} {k : String} {v : Value} (h : dlookup d k = some v) :
    dlookup (imputeDefaults defaults d) k = some v := by
  induction defaults generalizing d with
  | nil => exact h
  | cons p rest ih =>
    obtain ⟨k1, v1⟩ := p
    simp only [imputeDefaults]
    by_cases hc : dcontains d k1
    · simp only [hc, if_true]
      exact ih h
    · simp only [hc, ite_cond_false]
      have hne : k1 ≠ k := by
        intro he
        subst he
        rw [dcontains_iff.mpr ⟨v, h⟩] at hc
        exact hc rfl
      have h2 : dlookup (dset d k1 v1) k = some v := by
        rw [dlookup_dset_ne v1 hne]
        exact h
      exact ih h2

lemma dlookup_imputeDefaults_of_not_mem {defaults : List (String × Value)}
    {d : Dict} {k : String} (h : k ∉ defaults.map Prod.fst) :
    dlookup (imputeDefaults defaults d) k = dlookup d k := by
  induction defaults generalizing d with
  | nil => rfl
  | cons p rest ih =>
    obtain ⟨k1, v1⟩ := p
    simp only [List.map_cons, List.mem_cons, not_or] at h
    simp only [imputeDefaults]
    by_cases hc : dcontains d k1
    · simp only [hc, if_true]
      exact ih h.2
    · simp only [hc, ite_cond_false]
      rw [ih h.2, dlookup_dset_ne v1 (fun he => h.1 he.symm)]

lemma imputeDefaults_append {defaults : List (String × Value)} {d : Dict}
    (hnd : (defaults.map Prod.fst).Nodup)
    (h : ∀ k ∈ defaults.map Prod.fst, dcontains d k = false) :
    imputeDefaults defaults d = d ++ defaults := by
  induction defaults generalizing d with
  | nil => simp [imputeDefaults]
  | cons p rest ih =>
    obtain ⟨k, v⟩ := p
    simp only [List.map_cons, List.nodup_cons] at hnd
    have hk : dcontains d k = false := h k (by simp)
    simp only [imputeDefaults, hk, ite_cond_false, dset_of_not_contains v hk]
    rw [ih hnd.2]
    · simp
    · intro k1 hk1
      have hd1 : dcontains d k1 = false := h k1 (by simp [hk1])
      have hne : k ≠ k1 := fun he => hnd.1 (he ▸ hk1)
      simp [dcontains_append_single, hd1, hne]

lemma spec_none_lookup {d : Dict} {spec : List (String × List PyType)}
    {k : String} {tys : List PyType}
    (hs : check_data_existence_and_types d spec = Option.none)
    (hm : (k, tys) ∈ spec) (hp : PyType.pnone ∉ tys) :
    ∃ v, dlookup d k = some v := by
  induction spec with
  | nil => simp at hm
  | cons p rest ih =>
    obtain ⟨k1, tys1⟩ := p
    simp only [List.mem_cons] at hm
    rcases hm with hm | hm
    · injection hm with hk ht
      subst hk
      subst ht
      cases hl : dlookup d k with
      | none =>
        simp only [check_data_existence_and_types, hl, if_neg hp] at hs
        exact absurd hs (by simp)
      | some v => exact ⟨v, rfl⟩
    · cases hl : dlookup d k1 with
      | none =>
        simp only [check_data_existence_and_types, hl] at hs
        by_cases hp1 : PyType.pnone ∈ tys1
        · rw [if_pos hp1] at hs
          exact ih hs hm
        · rw [if_neg hp1] at hs
          exact absurd hs (by simp)
      | some v =>
        simp only [check_data_existence_and_types, hl] at hs
        by_cases ht1 : v.typeOf ∈ tys1
        · rw [if_pos ht1] at hs
          exact ih hs hm
        · rw [if_neg ht1] at hs
          exact absurd hs (by simp)

lemma spec_none_type {d : Dict} {spec : List (String × List PyType)}
    {k : String} {tys : List PyType} {v : Value}
    (hs : check_data_existence_and_types d spec = Option.none)
    (hm : (k, tys) ∈ spec) (hl : dlookup d k = some v) :
    v.typeOf ∈ tys := by
  induction spec with
  | nil => simp at hm
  | cons p rest ih =>
    obtain ⟨k1, tys1⟩ := p
    simp only [List.mem_cons] at hm
    rcases hm with hm | hm
    · injection hm with hk ht
      subst hk
      subst ht
      simp only [check_data_existence_and_types, hl] at hs
      by_cases ht1 : v.typeOf ∈ tys
      · exact ht1
      · rw [if_neg ht1] at hs
        exact absurd hs (by simp)
    · cases hl1 : dlookup d k1 with
      | none =>
        simp only [check_data_existence_and_types, hl1] at hs
        by_cases hp1 : PyType.pnone ∈ tys1
        · rw [if_pos hp1] at hs
          exact ih hs hm
        · rw [if_neg hp1] at hs
          exact absurd hs (by simp)
      | some v1 =>
        simp only [check_data_existence_and_types, hl1] at hs
        by_cases ht1 : v1.typeOf ∈ tys1
        · rw [if_pos ht1] at hs
          exact ih hs hm
        · rw [if_neg ht1] at hs
          exact absurd hs (by simp)

lemma firstFailure_cons_some {s : PyM (Option String)}
    {rest : List (PyM (Option String))} {d d1 : Dict} {e : String}
    (h : s d = .ok (some e, d1)) :
    firstFailure (s :: rest) d = .ok (some e, d1) := by
  simp [firstFailure, run_bind, runStep, h, run_pure]

lemma firstFailure_cons_none {s : PyM (Option String)}
    {rest : List (PyM (Option String))} {d d1 : Dict}
    (h : s d = .ok (Option.none, d1)) :
    firstFailure (s :: rest) d = firstFailure rest d1 := by
  simp [firstFailure, run_bind, runStep, h]

lemma firstFailure_cons_error {s : PyM (Option String)}
    {rest : List (PyM (Option String))} {d : Dict} {e : PyErr}
    (h : s d = .error e) :
    firstFailure (s :: rest) d = .error e := by
  simp [firstFailure, run_bind, runStep, h]

lemma firstFailure_nil (d : Dict) :
    firstFailure [] d = .ok (Option.none, d) := rfl

lemma run_step_types (table : List (String × List PyType)) (d : Dict) :
    step_types table d = .ok (check_data_existence_and_types d table, d) := rfl

lemma run_step_extension {d : Dict} {v : Value}
    (h : dlookup d "mediaFilePath" = some v) :
    step_extension d =
      .ok (if pyEndsWith v [".mp3", ".mp4"] = false then
             some ("mediaFilePath must be of type mp3 or mp4. Received: "
               ++ v.toStr)
           else Option.none, d) := by
  cases hB : pyEndsWith v [".mp3", ".mp4"] <;>
    simp only [step_extension, pyBind_def, pyPure_def, run_bind, runStep,
      dgetS, h, hB, ite_true_eq_false, ite_false_eq_false, run_pure] <;>
    simp [PyM.pure]

lemma run_step_device_none {d : Dict}
    (h : dlookup d "computeDevice" = some Value.none) :
    step_device d = .ok (Option.none, d) := by
  simp only [step_device, pyBind_def, pyPure_def, run_bind, runStep, dgetS, h,
    run_pure]

lemma run_step_device_some {d : Dict} {v : Value}
    (h : dlookup d "computeDevice" = some v) (hv : v ≠ Value.none) :
    step_device d = .ok (check_valid_torch_device v.toStr, d) := by
  cases v <;>
    simp only [step_device, pyBind_def, pyPure_def, run_bind, runStep, dgetS, h,
      run_pure] <;>
    try rfl
  exact absurd rfl hv

lemma run_step_texttile_input {d : Dict} {v1 v2 v3 v4 v5 v6 : Value}
    (h1 : dlookup d "cutoffPolicy" = some v1)
    (h2 : dlookup d "embeddingAggregationPoolMethod" = some v2)
    (h3 : dlookup d "maxClipTime" = some v3)
    (h4 : dlookup d "minClipTime" = some v4)
    (h5 : dlookup d "smoothingWidth" = some v5)
    (h6 : dlookup d "windowComparePoolMethod" = some v6) :
    step_texttile_input d =
      .ok (texttile_check_valid_config
        [("cutoff_policy", v1),
         ("embedding_aggregation_pool_method", v2),
         ("max_clip_duration_secs", v3),
         ("min_clip_duration_secs", v4),
         ("smoothing_width", v5),
         ("window_compare_pool_method", v6)], d) := by
  simp only [step_texttile_input, build_texttile_config_input, pyBind_def,
    pyPure_def, run_bind, runStep, dgetS, h1, h2, h3, h4, h5, h6, run_pure]

lemma run_step_texttile_request {d : Dict} {v1 v2 v3 v4 v5 v6 : Value}
    (h1 : dlookup d "cutoffPolicy" = some v1)
    (h2 : dlookup d "embeddingAggregationPoolMethod" = some v2)
    (h3 : dlookup d "maxClipTime" = some v3)
    (h4 : dlookup d "minClipTime" = some v4)
    (h5 : dlookup d "smoothingWidth" = some v5)
    (h6 : dlookup d "windowComparePoolMethod" = some v6) :
    step_texttile_request d =
      .ok (texttile_check_valid_config
        [("cutoff_policy", v1),
         ("embedding_aggregation_pool_method", v2),
         ("max_clip_duration_secs", v3),
         ("min_clip_duration_secs", v4),
         ("smoothing_width", v5),
         ("window_compare_pool_method", v6)], d) := by
  simp only [step_texttile_request, build_texttile_config_request, pyBind_def,
    pyPure_def, run_bind, runStep, dgetS, h1, h2, h3, h4, h5, h6, run_pure]

lemma run_step_whisperx {d : Dict} {v1 v2 v3 : Value}
    (h1 : dlookup d "languageCode" = some v1)
    (h2 : dlookup d "whisperModelSize" = some v2)
    (h3 : dlookup d "precision" = some v3) :
    step_whisperx d =
      .ok (whisperx_check_valid_config
        [("language", v1), ("model_size", v2), ("precision", v3)], d) := by
  simp only [step_whisperx, build_whisperx_config_request, pyBind_def,
    pyPure_def, run_bind, runStep, dgetS, h1, h2, h3, run_pure]

lemma step_types_preserves (table : List (String × List PyType)) :
    StepPreserves (step_types table) := by
  intro d r d1 h
  rw [run_step_types] at h
  cases h
  rfl

lemma step_extension_preserves : StepPreserves step_extension := by
  intro d r d1 h
  cases hm : dlookup d "mediaFilePath" with
  | none =>
    simp [step_extension, pyBind_def, pyPure_def, run_bind, runStep, dgetS,
      hm] at h
  | some v =>
    rw [run_step_extension hm] at h
    cases h
    rfl

lemma step_device_preserves : StepPreserves step_device := by
  intro d r d1 h
  cases hm : dlookup d "computeDevice" with
  | none =>
    simp [step_device, pyBind_def, pyPure_def, run_bind, runStep, dgetS,
      hm] at h
  | some v =>
    cases v with
    | none =>
      rw [run_step_device_none hm] at h
      cases h
      rfl
    | str s1 =>
      rw [run_step_device_some hm (by simp)] at h
      cases h
      rfl
    | int n =>
      rw [run_step_device_some hm (by simp)] at h
      cases h
      rfl
    | float q =>
      rw [run_step_device_some hm (by simp)] at h
      cases h
      rfl

lemma step_texttile_input_preserves : StepPreserves step_texttile_input := by
  intro d r d1 h
  cases h1 : dlookup d "cutoffPolicy" with
  | none =>
    simp [step_texttile_input, build_texttile_config_input, pyBind_def,
      pyPure_def, run_bind, runStep, dgetS, h1] at h
  | some v1 =>
  cases h2 : dlookup d "embeddingAggregationPoolMethod" with
  | none =>
    simp [step_texttile_input, build_texttile_config_input, pyBind_def,
      pyPure_def, run_bind, runStep, dgetS, h1, h2] at h
  | some v2 =>
  cases h3 : dlookup d "maxClipTime" with
  | none =>
    simp [step_texttile_input, build_texttile_config_input, pyBind_def,
      pyPure_def, run_bind, runStep, dgetS, h1, h2, h3] at h
  | some v3 =>
  cases h4 : dlookup d "minClipTime" with
  | none =>
    simp [step_texttile_input, build_texttile_config_input, pyBind_def,
      pyPure_def, run_bind, runStep, dgetS, h1, h2, h3, h4] at h
  | some v4 =>
  cases h5 : dlookup d "smoothingWidth" with
  | none =>
    simp [step_texttile_input, build_texttile_config_input, pyBind_def,
      pyPure_def, run_bind, runStep, dgetS, h1, h2, h3, h4, h5] at h
  | some v5 =>
  cases h6 : dlookup d "windowComparePoolMethod" with
  | none =>
    simp [step_texttile_input, build_texttile_config_input, pyBind_def,
      pyPure_def, run_bind, runStep, dgetS, h1, h2, h3, h4, h5, h6] at h
  | some v6 =>
  rw [run_step_texttile_input h1 h2 h3 h4 h5 h6] at h
  cases h
  rfl

lemma step_texttile_request_preserves : StepPreserves step_texttile_request := by
  intro d r d1 h
  cases h1 : dlookup d "cutoffPolicy" with
  | none =>
    simp [step_texttile_request, build_texttile_config_request, pyBind_def,
      pyPure_def, run_bind, runStep, dgetS, h1] at h
  | some v1 =>
  cases h2 : dlookup d "embeddingAggregationPoolMethod" with
  | none =>
    simp [step_texttile_request, build_texttile_config_request, pyBind_def,
      pyPure_def, run_bind, runStep, dgetS, h1, h2] at h
  | some v2 =>
  cases h3 : dlookup d "maxClipTime" with
  | none =>
    simp [step_texttile_request, build_texttile_config_request, pyBind_def,
      pyPure_def, run_bind, runStep, dgetS, h1, h2, h3] at h
  | some v3 =>
  cases h4 : dlookup d "minClipTime" with
  | none =>
    simp [step_texttile_request, build_texttile_config_request, pyBind_def,
      pyPure_def, run_bind, runStep, dgetS, h1, h2, h3, h4] at h
  | some v4 =>
  cases h5 : dlookup d "smoothingWidth" with
  | none =>
    simp [step_texttile_request, build_texttile_config_request, pyBind_def,
      pyPure_def, run_bind, runStep, dgetS, h1, h2, h3, h4, h5] at h
  | some v5 =>
  cases h6 : dlookup d "windowComparePoolMethod" with
  | none =>
    simp [step_texttile_request, build_texttile_config_request, pyBind_def,
      pyPure_def, run_bind, runStep, dgetS, h1, h2, h3, h4, h5, h6] at h
  | some v6 =>
  rw [run_step_texttile_request h1 h2 h3 h4 h5 h6] at h
  cases h
  rfl

lemma step_whisperx_preserves : StepPreserves step_whisperx := by
  intro d r d1 h
  cases h1 : dlookup d "languageCode" with
  | none =>
    simp [step_whisperx, build_whisperx_config_request, pyBind_def,
      pyPure_def, run_bind, runStep, dgetS, h1] at h
  | some v1 =>
  cases h2 : dlookup d "whisperModelSize" with
  | none =>
    simp [step_whisperx, build_whisperx_config_request, pyBind_def,
      pyPure_def, run_bind, runStep, dgetS, h1, h2] at h
  | some v2 =>
  cases h3 : dlookup d "precision" with
  | none =>
    simp [step_whisperx, build_whisperx_config_request, pyBind_def,
      pyPure_def, run_bind, runStep, dgetS, h1, h2, h3] at h
  | some v3 =>
  rw [run_step_whisperx h1 h2 h3] at h
  cases h
  rfl

lemma firstFailure_preserves {steps : List (PyM (Option String))}
    (hs : ∀ s ∈ steps, StepPreserves s) : StepPreserves (firstFailure steps) := by
  induction steps with
  | nil =>
    intro d r d1 h
    rw [firstFailure_nil] at h
    cases h
    rfl
  | cons s rest ih =>
    intro d r d1 h
    cases hres : s d with
    | error e =>
      rw [firstFailure_cons_error hres] at h
      exact Except.noConfusion h
    | ok p =>
      obtain ⟨r0, dmid⟩ := p
      have hdm : dmid = d := hs s (by simp) d r0 dmid hres
      rw [hdm] at hres
      cases r0 with
      | some e =>
        rw [firstFailure_cons_some hres] at h
        cases h
        rfl
      | none =>
        rw [firstFailure_cons_none hres] at h
        exact ih (fun s2 h2 => hs s2 (by simp [h2])) d r d1 h

/-- C1: for every parameter mapping, `check_valid_input_data` and
`check_valid_request_data` evaluate their checks in the fixed order
existence-and-types, media-file extension, compute device (run only when
the `computeDevice` field is non-null, as `step_device` is defined),
transcriber configuration (request variant only), clip-finder
configuration; each equals the `firstFailure` composition of its steps,
which returns the first non-`none` error produced, runs no later check,
and returns `none` only if every step passes. -/
theorem c1_fixed_order_short_circuit :
    (∀ d : Dict, check_valid_input_data d =
      firstFailure [step_types input_correct_types, step_extension,
        step_device, step_texttile_input] d) ∧
    (∀ d : Dict, check_valid_request_data d =
      firstFailure [step_types request_correct_types, step_extension,
        step_device, step_whisperx, step_texttile_request] d) :=
  ⟨check_input_eq_firstFailure, check_request_eq_firstFailure⟩

/-- C4: on a mapping missing all optional keys, the imputation functions
append exactly their default tables (`computeDevice ↦ None`,
`cutoffPolicy ↦ "high"`, `embeddingAggregationPoolMethod ↦ "max"`,
`minClipTime ↦ 15`, `maxClipTime ↦ 900`, `smoothingWidth ↦ 3`,
`windowComparePoolMethod ↦ "mean"`, and for the request variant also
`precision ↦ None`, `languageCode ↦ "en"`, `whisperModelSize ↦ None`);
in particular imputing `mediaFilePath ↦ "a.mp4"` yields
`languageCode = "en"`, `minClipTime = 15`, `maxClipTime = 900` and a null
`computeDevice`. -/
theorem c4_impute_inserts_exact_defaults :
    (∀ d : Dict, (∀ k ∈ input_defaults.map Prod.fst, dcontains d k = false) →
      impute_input_data_defaults d = d ++ input_defaults) ∧
    (∀ d : Dict, (∀ k ∈ request_defaults.map Prod.fst, dcontains d k = false) →
      impute_request_data_defaults d = d ++ request_defaults) ∧
    dlookup (impute_request_data_defaults [("mediaFilePath", Value.str "a.mp4")])
      "languageCode" = some (Value.str "en") ∧
    dlookup (impute_request_data_defaults [("mediaFilePath", Value.str "a.mp4")])
      "minClipTime" = some (Value.int 15) ∧
    dlookup (impute_request_data_defaults [("mediaFilePath", Value.str "a.mp4")])
      "maxClipTime" = some (Value.int 900) ∧
    dlookup (impute_request_data_defaults [("mediaFilePath", Value.str "a.mp4")])
      "computeDevice" = some Value.none := by
  refine ⟨fun d h => imputeDefaults_append (by decide) h,
    fun d h => imputeDefaults_append (by decide) h, ?_, ?_, ?_, ?_⟩ <;> decide

/-- Witness for C4 at a concrete mapping holding only the media path. -/
theorem c4_witness :
    impute_input_data_defaults [("mediaFilePath", Value.str "a.mp3")] =
      [("mediaFilePath", Value.str "a.mp3")] ++ input_defaults :=
  c4_impute_inserts_exact_defaults.1 [("mediaFilePath", Value.str "a.mp3")]
    (by decide)

/-- C5: both imputation functions are idempotent, and every key already
present in the mapping — including keys explicitly bound to `None` — keeps
its value. -/
theorem c5_impute_idempotent_preserves_present :
    (∀ d : Dict, impute_input_data_defaults (impute_input_data_defaults d) =
      impute_input_data_defaults d) ∧
    (∀ d : Dict, impute_request_data_defaults (impute_request_data_defaults d) =
      impute_request_data_defaults d) ∧
    (∀ (d : Dict) (k : String) (v : Value), dlookup d k = some v →
      dlookup (impute_input_data_defaults d) k = some v) ∧
    (∀ (d : Dict) (k : String) (v : Value), dlookup d k = some v →
      dlookup (impute_request_data_defaults d) k = some v) := by
  refine ⟨fun d => ?_, fun d => ?_,
    fun d k v h => dlookup_imputeDefaults_of_some h,
    fun d k v h => dlookup_imputeDefaults_of_some h⟩ <;>
  · apply imputeDefaults_of_all_contains
    intro p hp
    exact dcontains_imputeDefaults_of_mem (List.mem_map_of_mem Prod.fst hp)

/-- Witness for C5: a key explicitly set to `None` survives imputation
unchanged, and imputation of an already-imputed concrete mapping is the
identity. -/
theorem c5_witness :
    dlookup (impute_input_data_defaults [("computeDevice", Value.none)])
      "computeDevice" = some Value.none :=
  c5_impute_idempotent_preserves_present.2.2.1
    [("computeDevice", Value.none)] "computeDevice" Value.none (by decide)

/-- C8: validation never mutates the mapping: whenever
`check_valid_input_data` or `check_valid_request_data` returns normally,
the final dictionary is the one it was given (no key added, removed or
rebound). -/
theorem c8_validation_never_mutates :
    (∀ (d : Dict) (r : Option String) (d1 : Dict),
      check_valid_input_data d = .ok (r, d1) → d1 = d) ∧
    (∀ (d : Dict) (r : Option String) (d1 : Dict),
      check_valid_request_data d = .ok (r, d1) → d1 = d) := by
  constructor
  · intro d r d1 h
    rw [check_input_eq_firstFailure] at h
    refine firstFailure_preserves ?_ d r d1 h
    intro s hs
    simp only [List.mem_cons, List.not_mem_nil, or_false] at hs
    rcases hs with rfl | rfl | rfl | rfl
    · exact step_types_preserves _
    · exact step_extension_preserves
    · exact step_device_preserves
    · exact step_texttile_input_preserves
  · intro d r d1 h
    rw [check_request_eq_firstFailure] at h
    refine firstFailure_preserves ?_ d r d1 h
    intro s hs
    simp only [List.mem_cons, List.not_mem_nil, or_false] at hs
    rcases hs with rfl | rfl | rfl | rfl | rfl
    · exact step_types_preserves _
    · exact step_extension_preserves
    · exact step_device_preserves
    · exact step_whisperx_preserves
    · exact step_texttile_request_preserves

/-- Witness for C8 at a concrete valid mapping. -/
theorem c8_witness :
    ([("mediaFilePath", Value.str "a.mp3"),
      ("computeDevice", Value.none),
      ("cutoffPolicy", Value.str "high"),
      ("embeddingAggregationPoolMethod", Value.str "max"),
      ("minClipTime", Value.int 15),
      ("maxClipTime", Value.int 900),
      ("smoothingWidth", Value.int 3),
      ("windowComparePoolMethod", Value.str "mean")] : Dict) =
      [("mediaFilePath", Value.str "a.mp3"),
      ("computeDevice", Value.none),
      ("cutoffPolicy", Value.str "high"),
      ("embeddingAggregationPoolMethod", Value.str "max"),
      ("minClipTime", Value.int 15),
      ("maxClipTime", Value.int 900),
      ("smoothingWidth", Value.int 3),
      ("windowComparePoolMethod", Value.str "mean")] :=
  c8_validation_never_mutates.1 _ Option.none _ (by decide)

/-- C9: the imputation functions touch only keys of their default tables:
any key outside the table — `mediaFilePath` in particular — is neither
added, removed nor modified, and a mapping lacking `mediaFilePath` still
lacks it after imputation. -/
theorem c9_impute_touches_only_default_keys :
    (∀ (d : Dict) (k : String), k ∉ input_defaults.map Prod.fst →
      dlookup (impute_input_data_defaults d) k = dlookup d k) ∧
    (∀ (d : Dict) (k : String), k ∉ request_defaults.map Prod.fst →
      dlookup (impute_request_data_defaults d) k = dlookup d k) ∧
    (∀ d : Dict, dcontains d "mediaFilePath" = false →
      dcontains (impute_input_data_defaults d) "mediaFilePath" = false) ∧
    (∀ d : Dict, dcontains d "mediaFilePath" = false →
      dcontains (impute_request_data_defaults d) "mediaFilePath" = false) := by
  refine ⟨fun d k h => dlookup_imputeDefaults_of_not_mem h,
    fun d k h => dlookup_imputeDefaults_of_not_mem h, fun d h => ?_, fun d h => ?_⟩
  · simp only [impute_input_data_defaults, dcontains] at h ⊢
    rw [dlookup_imputeDefaults_of_not_mem (by decide)]
    exact h
  · simp only [impute_request_data_defaults, dcontains] at h ⊢
    rw [dlookup_imputeDefaults_of_not_mem (by decide)]
    exact h

/-- Witness for C9: an unrecognized key keeps its binding and an absent
media path stays absent. -/
theorem c9_witness :
    dlookup (impute_input_data_defaults [("unrecognizedKey", Value.int 7)])
      "unrecognizedKey" = dlookup [("unrecognizedKey", Value.int 7)]
      "unrecognizedKey" :=
  c9_impute_touches_only_default_keys.1 [("unrecognizedKey", Value.int 7)]
    "unrecognizedKey" (by decide)

/-- C10: both validators build the very same text-tiling sub-configuration
from the shared clip fields and delegate it to the same configuration
manager: the two clip-finder steps are pointwise equal, and on any two
mappings agreeing on the shared clip fields the request-variant step
returns the same result as the input-variant step. -/
theorem c10_texttile_steps_equivalent :
    (∀ d : Dict, step_texttile_input d = step_texttile_request d) ∧
    (∀ d1 d2 : Dict, (∀ k ∈ clip_fields, dlookup d1 k = dlookup d2 k) →
      Except.map Prod.fst (step_texttile_request d1) =
        Except.map Prod.fst (step_texttile_input d2)) := by
  constructor
  · intro d
    rfl
  · intro d1 d2 h
    have e1 : dlookup d2 "cutoffPolicy" = dlookup d1 "cutoffPolicy" :=
      (h "cutoffPolicy" (by simp [clip_fields])).symm
    have e2 : dlookup d2 "embeddingAggregationPoolMethod" =
        dlookup d1 "embeddingAggregationPoolMethod" :=
      (h "embeddingAggregationPoolMethod" (by simp [clip_fields])).symm
    have e3 : dlookup d2 "maxClipTime" = dlookup d1 "maxClipTime" :=
      (h "maxClipTime" (by simp [clip_fields])).symm
    have e4 : dlookup d2 "minClipTime" = dlookup d1 "minClipTime" :=
      (h "minClipTime" (by simp [clip_fields])).symm
    have e5 : dlookup d2 "smoothingWidth" = dlookup d1 "smoothingWidth" :=
      (h "smoothingWidth" (by simp [clip_fields])).symm
    have e6 : dlookup d2 "windowComparePoolMethod" =
        dlookup d1 "windowComparePoolMethod" :=
      (h "windowComparePoolMethod" (by simp [clip_fields])).symm
    cases h1 : dlookup d1 "cutoffPolicy" with
    | none =>
      simp [step_texttile_input, step_texttile_request,
        build_texttile_config_input, build_texttile_config_request, pyBind_def,
        pyPure_def, run_bind, runStep, dgetS, h1, e1.trans h1]
    | some v1 =>
    cases h2 : dlookup d1 "embeddingAggregationPoolMethod" with
    | none =>
      simp [step_texttile_input, step_texttile_request,
        build_texttile_config_input, build_texttile_config_request, pyBind_def,
        pyPure_def, run_bind, runStep, dgetS, h1, e1.trans h1, h2, e2.trans h2]
    | some v2 =>
    cases h3 : dlookup d1 "maxClipTime" with
    | none =>
      simp [step_texttile_input, step_texttile_request,
        build_texttile_config_input, build_texttile_config_request, pyBind_def,
        pyPure_def, run_bind, runStep, dgetS, h1, e1.trans h1, h2, e2.trans h2,
        h3, e3.trans h3]
    | some v3 =>
    cases h4 : dlookup d1 "minClipTime" with
    | none =>
      simp [step_texttile_input, step_texttile_request,
        build_texttile_config_input, build_texttile_config_request, pyBind_def,
        pyPure_def, run_bind, runStep, dgetS, h1, e1.trans h1, h2, e2.trans h2,
        h3, e3.trans h3, h4, e4.trans h4]
    | some v4 =>
    cases h5 : dlookup d1 "smoothingWidth" with
    | none =>
      simp [step_texttile_input, step_texttile_request,
        build_texttile_config_input, build_texttile_config_request, pyBind_def,
        pyPure_def, run_bind, runStep, dgetS, h1, e1.trans h1, h2, e2.trans h2,
        h3, e3.trans h3, h4, e4.trans h4, h5, e5.trans h5]
    | some v5 =>
    cases h6 : dlookup d1 "windowComparePoolMethod" with
    | none =>
      simp [step_texttile_input, step_texttile_request,
        build_texttile_config_input, build_texttile_config_request, pyBind_def,
        pyPure_def, run_bind, runStep, dgetS, h1, e1.trans h1, h2, e2.trans h2,
        h3, e3.trans h3, h4, e4.trans h4, h5, e5.trans h5, h6, e6.trans h6]
    | some v6 =>
    rw [run_step_texttile_request h1 h2 h3 h4 h5 h6,
      run_step_texttile_input (e1.trans h1) (e2.trans h2) (e3.trans h3)
        (e4.trans h4) (e5.trans h5) (e6.trans h6)]
    simp [Except.map]

/-- Witness for C10 at two concrete mappings agreeing on the clip fields. -/
theorem c10_witness :
    Except.map Prod.fst (step_texttile_request
      [("cutoffPolicy", Value.str "high"),
       ("embeddingAggregationPoolMethod", Value.str "max"),
       ("minClipTime", Value.int 15),
       ("maxClipTime", Value.int 900),
       ("smoothingWidth", Value.int 3),
       ("windowComparePoolMethod", Value.str "mean"),
       ("languageCode", Value.str "en")]) =
    Except.map Prod.fst (step_texttile_input
      [("mediaFilePath", Value.str "a.mp3"),
       ("cutoffPolicy", Value.str "high"),
       ("embeddingAggregationPoolMethod", Value.str "max"),
       ("minClipTime", Value.int 15),
       ("maxClipTime", Value.int 900),
       ("smoothingWidth", Value.int 3),
       ("windowComparePoolMethod", Value.str "mean")]) :=
  c10_texttile_steps_equivalent.2 _ _ (by decide)

/-- C3: on a mapping whose existence-and-type check passes, a media path
not ending in the exact suffixes `.mp3` or `.mp4` makes the validator
return the extension error carrying the received path, while a path ending
in one of them makes the extension step produce no error. -/
theorem c3_extension_check :
    ∀ (d : Dict) (p : String),
      dlookup d "mediaFilePath" = some (Value.str p) →
      ((check_data_existence_and_types d input_correct_types = Option.none →
          pyEndsWith (Value.str p) [".mp3", ".mp4"] = false →
          check_valid_input_data d =
            .ok (some ("mediaFilePath must be of type mp3 or mp4. Received: "
              ++ p), d)) ∧
       (check_data_existence_and_types d request_correct_types = Option.none →
          pyEndsWith (Value.str p) [".mp3", ".mp4"] = false →
          check_valid_request_data d =
            .ok (some ("mediaFilePath must be of type mp3 or mp4. Received: "
              ++ p), d)) ∧
       (pyEndsWith (Value.str p) [".mp3", ".mp4"] = true →
          step_extension d = .ok (Option.none, d))) := by
  intro d p hm
  refine ⟨fun hs hB => ?_, fun hs hB => ?_, fun hB => ?_⟩
  · have hext : step_extension d =
        .ok (some ("mediaFilePath must be of type mp3 or mp4. Received: "
          ++ p), d) := by
      rw [run_step_extension hm]
      simp [hB, ite_false_eq_false, Value.toStr]
    rw [check_input_eq_firstFailure,
      firstFailure_cons_none (by rw [run_step_types, hs]),
      firstFailure_cons_some hext]
  · have hext : step_extension d =
        .ok (some ("mediaFilePath must be of type mp3 or mp4. Received: "
          ++ p), d) := by
      rw [run_step_extension hm]
      simp [hB, ite_false_eq_false, Value.toStr]
    rw [check_request_eq_firstFailure,
      firstFailure_cons_none (by rw [run_step_types, hs]),
      firstFailure_cons_some hext]
  · rw [run_step_extension hm]
    simp [hB, ite_true_eq_false]

/-- Witness for C3: the `.wav` path is rejected with a message carrying the
path, and an `.mp3` path passes the extension step. -/
theorem c3_witness :
    check_valid_input_data sample_bad_ext_input =
      .ok (some ("mediaFilePath must be of type mp3 or mp4. Received: "
        ++ "a.wav"), sample_bad_ext_input) ∧
    step_extension [("mediaFilePath", Value.str "a.mp3")] =
      .ok (Option.none, [("mediaFilePath", Value.str "a.mp3")]) :=
  ⟨(c3_extension_check sample_bad_ext_input "a.wav" (by decide)).1
      (by decide) (by decide),
   (c3_extension_check [("mediaFilePath", Value.str "a.mp3")] "a.mp3"
      (by decide)).2.2 (by decide)⟩

lemma firstFailure_singleton {s : PyM (Option String)} {d : Dict}
    {r : Option String} (h : s d = .ok (r, d)) :
    firstFailure [s] d = .ok (r, d) := by
  cases r with
  | some e => exact firstFailure_cons_some h
  | none => rw [firstFailure_cons_none h, firstFailure_nil]

lemma step_device_ok {d : Dict} {v : Value}
    (h : dlookup d "computeDevice" = some v) :
    ∃ rd, step_device d = .ok (rd, d) := by
  cases v with
  | none => exact ⟨_, run_step_device_none h⟩
  | str s => exact ⟨_, run_step_device_some h (by simp)⟩
  | int n => exact ⟨_, run_step_device_some h (by simp)⟩
  | float q => exact ⟨_, run_step_device_some h (by simp)⟩

/-- Counterexample to C2: a mapping from which the nullable `computeDevice`
field is entirely absent passes the existence-and-type check (its accepted
type-set includes the null marker) and then makes
`check_valid_input_data` raise `KeyError` on the unconditional
`computeDevice` subscript, instead of returning `None` or an error
string. -/
theorem c2_counterexample :
    check_data_existence_and_types sample_missing_device input_correct_types =
      Option.none ∧
    check_valid_input_data sample_missing_device =
      .error (.keyError "computeDevice") := by
  constructor <;> decide

/-- C2 (amended): whenever every key of the type specification is present
in the mapping — as is the case after default imputation — the validators
never raise: they return normally with either `None` or a descriptive
error string, leaving the mapping unchanged.  (As stated over all mappings
the claim fails: a mapping entirely lacking a nullable key such as
`computeDevice` passes the existence check yet raises `KeyError`.) -/
theorem c2_no_raise_when_fields_present :
    (∀ d : Dict, (∀ k ∈ input_correct_types.map Prod.fst, dcontains d k = true) →
      ∃ r : Option String, check_valid_input_data d = .ok (r, d)) ∧
    (∀ d : Dict, (∀ k ∈ request_correct_types.map Prod.fst, dcontains d k = true) →
      ∃ r : Option String, check_valid_request_data d = .ok (r, d)) := by
  constructor
  · intro d h
    obtain ⟨v1, hv1⟩ := dcontains_iff.mp (h "mediaFilePath" (by simp [input_correct_types]))
    obtain ⟨v2, hv2⟩ := dcontains_iff.mp (h "computeDevice" (by simp [input_correct_types]))
    obtain ⟨v3, hv3⟩ := dcontains_iff.mp (h "cutoffPolicy" (by simp [input_correct_types]))
    obtain ⟨v4, hv4⟩ := dcontains_iff.mp (h "embeddingAggregationPoolMethod" (by simp [input_correct_types]))
    obtain ⟨v5, hv5⟩ := dcontains_iff.mp (h "minClipTime" (by simp [input_correct_types]))
    obtain ⟨v6, hv6⟩ := dcontains_iff.mp (h "maxClipTime" (by simp [input_correct_types]))
    obtain ⟨v7, hv7⟩ := dcontains_iff.mp (h "smoothingWidth" (by simp [input_correct_types]))
    obtain ⟨v8, hv8⟩ := dcontains_iff.mp (h "windowComparePoolMethod" (by simp [input_correct_types]))
    rw [check_input_eq_firstFailure]
    cases hs : check_data_existence_and_types d input_correct_types with
    | some e => exact ⟨some e, firstFailure_cons_some (by rw [run_step_types, hs])⟩
    | none =>
      rw [firstFailure_cons_none (by rw [run_step_types, hs])]
      obtain ⟨re, hext⟩ : ∃ re, step_extension d = .ok (re, d) :=
        ⟨_, run_step_extension hv1⟩
      cases re with
      | some e => exact ⟨some e, firstFailure_cons_some hext⟩
      | none =>
        rw [firstFailure_cons_none hext]
        obtain ⟨rd, hdev⟩ := step_device_ok hv2
        cases rd with
        | some e => exact ⟨some e, firstFailure_cons_some hdev⟩
        | none =>
          rw [firstFailure_cons_none hdev]
          exact ⟨_, firstFailure_singleton
            (run_step_texttile_input hv3 hv4 hv6 hv5 hv7 hv8)⟩
  · intro d h
    obtain ⟨v1, hv1⟩ := dcontains_iff.mp (h "mediaFilePath" (by simp [request_correct_types]))
    obtain ⟨v2, hv2⟩ := dcontains_iff.mp (h "computeDevice" (by simp [request_correct_types]))
    obtain ⟨w1, hw1⟩ := dcontains_iff.mp (h "languageCode" (by simp [request_correct_types]))
    obtain ⟨w2, hw2⟩ := dcontains_iff.mp (h "whisperModelSize" (by simp [request_correct_types]))
    obtain ⟨w3, hw3⟩ := dcontains_iff.mp (h "precision" (by simp [request_correct_types]))
    obtain ⟨v3, hv3⟩ := dcontains_iff.mp (h "cutoffPolicy" (by simp [request_correct_types]))
    obtain ⟨v4, hv4⟩ := dcontains_iff.mp (h "embeddingAggregationPoolMethod" (by simp [request_correct_types]))
    obtain ⟨v5, hv5⟩ := dcontains_iff.mp (h "minClipTime" (by simp [request_correct_types]))
    obtain ⟨v6, hv6⟩ := dcontains_iff.mp (h "maxClipTime" (by simp [request_correct_types]))
    obtain ⟨v7, hv7⟩ := dcontains_iff.mp (h "smoothingWidth" (by simp [request_correct_types]))
    obtain ⟨v8, hv8⟩ := dcontains_iff.mp (h "windowComparePoolMethod" (by simp [request_correct_types]))
    rw [check_request_eq_firstFailure]
    cases hs : check_data_existence_and_types d request_correct_types with
    | some e => exact ⟨some e, firstFailure_cons_some (by rw [run_step_types, hs])⟩
    | none =>
      rw [firstFailure_cons_none (by rw [run_step_types, hs])]
      obtain ⟨re, hext⟩ : ∃ re, step_extension d = .ok (re, d) :=
        ⟨_, run_step_extension hv1⟩
      cases re with
      | some e => exact ⟨some e, firstFailure_cons_some hext⟩
      | none =>
        rw [firstFailure_cons_none hext]
        obtain ⟨rd, hdev⟩ := step_device_ok hv2
        cases rd with
        | some e => exact ⟨some e, firstFailure_cons_some hdev⟩
        | none =>
          rw [firstFailure_cons_none hdev]
          obtain ⟨rw1, hwh⟩ : ∃ rw1, step_whisperx d = .ok (rw1, d) :=
            ⟨_, run_step_whisperx hw1 hw2 hw3⟩
          cases rw1 with
          | some e => exact ⟨some e, firstFailure_cons_some hwh⟩
          | none =>
            rw [firstFailure_cons_none hwh]
            exact ⟨_, firstFailure_singleton
              (run_step_texttile_request hv3 hv4 hv6 hv5 hv7 hv8)⟩

/-- Witness for C2 (amended) at a concrete fully populated mapping. -/
theorem c2_witness :
    ∃ r : Option String, check_valid_input_data
      [("mediaFilePath", Value.str "a.mp3"),
       ("computeDevice", Value.none),
       ("cutoffPolicy", Value.str "high"),
       ("embeddingAggregationPoolMethod", Value.str "max"),
       ("minClipTime", Value.int 15),
       ("maxClipTime", Value.int 900),
       ("smoothingWidth", Value.int 3),
       ("windowComparePoolMethod", Value.str "mean")] =
      .ok (r, [("mediaFilePath", Value.str "a.mp3"),
       ("computeDevice", Value.none),
       ("cutoffPolicy", Value.str "high"),
       ("embeddingAggregationPoolMethod", Value.str "max"),
       ("minClipTime", Value.int 15),
       ("maxClipTime", Value.int 900),
       ("smoothingWidth", Value.int 3),
       ("windowComparePoolMethod", Value.str "mean")]) :=
  c2_no_raise_when_fields_present.1 _ (by decide)

/-- Counterexample to C6: a mapping passing the request existence-and-type
check (the nullable `whisperModelSize` may be absent) on which the
transcriber sub-configuration is never handed over: its construction
raises `KeyError` instead of producing the three-key mapping. -/
theorem c6_counterexample :
    check_data_existence_and_types sample_missing_whisper_size
      request_correct_types = Option.none ∧
    build_whisperx_config_request sample_missing_whisper_size =
      .error (.keyError "whisperModelSize") ∧
    ∀ r : Dict × Dict, build_whisperx_config_request
      sample_missing_whisper_size ≠ .ok r := by
  refine ⟨by decide, by decide, ?_⟩
  intro r hcontra
  have hb : build_whisperx_config_request sample_missing_whisper_size =
      .error (.keyError "whisperModelSize") := by decide
  rw [hb] at hcontra
  exact Except.noConfusion hcontra

/-- C6 (amended): on a mapping whose existence-and-type check passes, the
text-tiling sub-configuration handed to the clip-finder manager contains
exactly the six renamed keys bound to the corresponding outer fields, in
both validators; the transcriber sub-configuration likewise contains
exactly `language`, `model_size`, `precision` bound to `languageCode`,
`whisperModelSize`, `precision`, provided the nullable fields
`whisperModelSize` and `precision` are present in the mapping (when one is
absent the construction raises `KeyError` instead). -/
theorem c6_subconfig_exact_keys :
    ∀ d : Dict,
      (check_data_existence_and_types d input_correct_types = Option.none →
        ∃ v1 v2 v3 v4 v5 v6,
          dlookup d "cutoffPolicy" = some v1 ∧
          dlookup d "embeddingAggregationPoolMethod" = some v2 ∧
          dlookup d "maxClipTime" = some v3 ∧
          dlookup d "minClipTime" = some v4 ∧
          dlookup d "smoothingWidth" = some v5 ∧
          dlookup d "windowComparePoolMethod" = some v6 ∧
          build_texttile_config_input d =
            .ok ([("cutoff_policy", v1),
              ("embedding_aggregation_pool_method", v2),
              ("max_clip_duration_secs", v3),
              ("min_clip_duration_secs", v4),
              ("smoothing_width", v5),
              ("window_compare_pool_method", v6)], d)) ∧
      (check_data_existence_and_types d request_correct_types = Option.none →
        (∃ v1 v2 v3 v4 v5 v6,
          dlookup d "cutoffPolicy" = some v1 ∧
          dlookup d "embeddingAggregationPoolMethod" = some v2 ∧
          dlookup d "maxClipTime" = some v3 ∧
          dlookup d "minClipTime" = some v4 ∧
          dlookup d "smoothingWidth" = some v5 ∧
          dlookup d "windowComparePoolMethod" = some v6 ∧
          build_texttile_config_request d =
            .ok ([("cutoff_policy", v1),
              ("embedding_aggregation_pool_method", v2),
              ("max_clip_duration_secs", v3),
              ("min_clip_duration_secs", v4),
              ("smoothing_width", v5),
              ("window_compare_pool_method", v6)], d)) ∧
        (dcontains d "whisperModelSize" = true →
         dcontains d "precision" = true →
          ∃ w1 w2 w3,
            dlookup d "languageCode" = some w1 ∧
            dlookup d "whisperModelSize" = some w2 ∧
            dlookup d "precision" = some w3 ∧
            build_whisperx_config_request d =
              .ok ([("language", w1), ("model_size", w2),
                ("precision", w3)], d))) := by
  intro d
  constructor
  · intro hs
    obtain ⟨v1, h1⟩ := spec_none_lookup hs
      (show ("cutoffPolicy", [PyType.pstr]) ∈ input_correct_types by decide)
      (by decide)
    obtain ⟨v2, h2⟩ := spec_none_lookup hs
      (show ("embeddingAggregationPoolMethod", [PyType.pstr]) ∈
        input_correct_types by decide) (by decide)
    obtain ⟨v3, h3⟩ := spec_none_lookup hs
      (show ("maxClipTime", [PyType.pfloat, PyType.pint]) ∈
        input_correct_types by decide) (by decide)
    obtain ⟨v4, h4⟩ := spec_none_lookup hs
      (show ("minClipTime", [PyType.pfloat, PyType.pint]) ∈
        input_correct_types by decide) (by decide)
    obtain ⟨v5, h5⟩ := spec_none_lookup hs
      (show ("smoothingWidth", [PyType.pint]) ∈ input_correct_types by decide)
      (by decide)
    obtain ⟨v6, h6⟩ := spec_none_lookup hs
      (show ("windowComparePoolMethod", [PyType.pstr]) ∈
        input_correct_types by decide) (by decide)
    refine ⟨v1, v2, v3, v4, v5, v6, h1, h2, h3, h4, h5, h6, ?_⟩
    simp only [build_texttile_config_input, pyBind_def, pyPure_def, run_bind,
      runStep, dgetS, h1, h2, h3, h4, h5, h6, run_pure]
  · intro hs
    constructor
    · obtain ⟨v1, h1⟩ := spec_none_lookup hs
        (show ("cutoffPolicy", [PyType.pstr]) ∈ request_correct_types by decide)
        (by decide)
      obtain ⟨v2, h2⟩ := spec_none_lookup hs
        (show ("embeddingAggregationPoolMethod", [PyType.pstr]) ∈
          request_correct_types by decide) (by decide)
      obtain ⟨v3, h3⟩ := spec_none_lookup hs
        (show ("maxClipTime", [PyType.pfloat, PyType.pint]) ∈
          request_correct_types by decide) (by decide)
      obtain ⟨v4, h4⟩ := spec_none_lookup hs
        (show ("minClipTime", [PyType.pfloat, PyType.pint]) ∈
          request_correct_types by decide) (by decide)
      obtain ⟨v5, h5⟩ := spec_none_lookup hs
        (show ("smoothingWidth", [PyType.pint]) ∈ request_correct_types by decide)
        (by decide)
      obtain ⟨v6, h6⟩ := spec_none_lookup hs
        (show ("windowComparePoolMethod", [PyType.pstr]) ∈
          request_correct_types by decide) (by decide)
      refine ⟨v1, v2, v3, v4, v5, v6, h1, h2, h3, h4, h5, h6, ?_⟩
      simp only [build_texttile_config_request, pyBind_def, pyPure_def,
        run_bind, runStep, dgetS, h1, h2, h3, h4, h5, h6, run_pure]
    · intro hw hp
      obtain ⟨w1, g1⟩ := spec_none_lookup hs
        (show ("languageCode", [PyType.pstr]) ∈ request_correct_types by decide)
        (by decide)
      obtain ⟨w2, g2⟩ := dcontains_iff.mp hw
      obtain ⟨w3, g3⟩ := dcontains_iff.mp hp
      refine ⟨w1, w2, w3, g1, g2, g3, ?_⟩
      simp only [build_whisperx_config_request, pyBind_def, pyPure_def,
        run_bind, runStep, dgetS, g1, g2, g3, run_pure]

/-- Witness for C6 (amended) at a concrete fully populated request
mapping. -/
theorem c6_witness :
    (∃ w1 w2 w3,
      dlookup ([("mediaFilePath", Value.str "a.mp4"),
        ("computeDevice", Value.none),
        ("precision", Value.none),
        ("languageCode", Value.str "en"),
        ("whisperModelSize", Value.none),
        ("cutoffPolicy", Value.str "high"),
        ("embeddingAggregationPoolMethod", Value.str "max"),
        ("minClipTime", Value.int 15),
        ("maxClipTime", Value.int 900),
        ("smoothingWidth", Value.int 3),
        ("windowComparePoolMethod", Value.str "mean")] : Dict)
        "languageCode" = some w1 ∧
      dlookup [("mediaFilePath", Value.str "a.mp4"),
        ("computeDevice", Value.none),
        ("precision", Value.none),
        ("languageCode", Value.str "en"),
        ("whisperModelSize", Value.none),
        ("cutoffPolicy", Value.str "high"),
        ("embeddingAggregationPoolMethod", Value.str "max"),
        ("minClipTime", Value.int 15),
        ("maxClipTime", Value.int 900),
        ("smoothingWidth", Value.int 3),
        ("windowComparePoolMethod", Value.str "mean")]
        "whisperModelSize" = some w2 ∧
      dlookup [("mediaFilePath", Value.str "a.mp4"),
        ("computeDevice", Value.none),
        ("precision", Value.none),
        ("languageCode", Value.str "en"),
        ("whisperModelSize", Value.none),
        ("cutoffPolicy", Value.str "high"),
        ("embeddingAggregationPoolMethod", Value.str "max"),
        ("minClipTime", Value.int 15),
        ("maxClipTime", Value.int 900),
        ("smoothingWidth", Value.int 3),
        ("windowComparePoolMethod", Value.str "mean")]
        "precision" = some w3 ∧
      build_whisperx_config_request [("mediaFilePath", Value.str "a.mp4"),
        ("computeDevice", Value.none),
        ("precision", Value.none),
        ("languageCode", Value.str "en"),
        ("whisperModelSize", Value.none),
        ("cutoffPolicy", Value.str "high"),
        ("embeddingAggregationPoolMethod", Value.str "max"),
        ("minClipTime", Value.int 15),
        ("maxClipTime", Value.int 900),
        ("smoothingWidth", Value.int 3),
        ("windowComparePoolMethod", Value.str "mean")] =
        .ok ([("language", w1), ("model_size", w2), ("precision", w3)],
          [("mediaFilePath", Value.str "a.mp4"),
        ("computeDevice", Value.none),
        ("precision", Value.none),
        ("languageCode", Value.str "en"),
        ("whisperModelSize", Value.none),
        ("cutoffPolicy", Value.str "high"),
        ("embeddingAggregationPoolMethod", Value.str "max"),
        ("minClipTime", Value.int 15),
        ("maxClipTime", Value.int 900),
        ("smoothingWidth", Value.int 3),
        ("windowComparePoolMethod", Value.str "mean")])) :=
  ((c6_subconfig_exact_keys _).2 (by decide)).2 (by decide) (by decide)

lemma texttile_config_range_error {v1 v2 v3 v4 v5 v6 : Value}
    (t1 : v1.typeOf ∈ [PyType.pstr])
    (t2 : v2.typeOf ∈ [PyType.pstr])
    (t3 : v3.typeOf ∈ [PyType.pfloat, PyType.pint])
    (t4 : v4.typeOf ∈ [PyType.pfloat, PyType.pint])
    (t5 : v5.typeOf ∈ [PyType.pint])
    (t6 : v6.typeOf ∈ [PyType.pstr])
    (hlt : v3.toRat < v4.toRat) :
    texttile_check_valid_config
      [("cutoff_policy", v1), ("embedding_aggregation_pool_method", v2),
       ("max_clip_duration_secs", v3), ("min_clip_duration_secs", v4),
       ("smoothing_width", v5), ("window_compare_pool_method", v6)] =
    some "min_clip_duration_secs must be less than or equal to max_clip_duration_secs" := by
  have hex : check_data_existence_and_types
      [("cutoff_policy", v1), ("embedding_aggregation_pool_method", v2),
       ("max_clip_duration_secs", v3), ("min_clip_duration_secs", v4),
       ("smoothing_width", v5), ("window_compare_pool_method", v6)]
      texttile_correct_types = Option.none := by
    have e1 : v1.typeOf = PyType.pstr := by simpa using t1
    have e2 : v2.typeOf = PyType.pstr := by simpa using t2
    have e5 : v5.typeOf = PyType.pint := by simpa using t5
    have e6 : v6.typeOf = PyType.pstr := by simpa using t6
    simp [check_data_existence_and_types, texttile_correct_types, dlookup,
      e1, e2, t3, t4, e5, e6]
  simp [texttile_check_valid_config, hex, dlookupD, dlookup, hlt]

/-- C7: on a mapping passing the existence-and-type, extension, device and
(request variant) transcriber-configuration checks whose `minClipTime`
exceeds its `maxClipTime`, both validators return the clip-finder
configuration manager's range-violation message, propagated verbatim. -/
theorem c7_min_gt_max_range_error :
    ∀ (d : Dict) (mn mx : Value),
      dlookup d "minClipTime" = some mn →
      dlookup d "maxClipTime" = some mx →
      mx.toRat < mn.toRat →
      ((check_data_existence_and_types d input_correct_types = Option.none →
        step_extension d = .ok (Option.none, d) →
        step_device d = .ok (Option.none, d) →
        ∃ v1 v2 v5 v6,
          dlookup d "cutoffPolicy" = some v1 ∧
          dlookup d "embeddingAggregationPoolMethod" = some v2 ∧
          dlookup d "smoothingWidth" = some v5 ∧
          dlookup d "windowComparePoolMethod" = some v6 ∧
          texttile_check_valid_config
            [("cutoff_policy", v1), ("embedding_aggregation_pool_method", v2),
             ("max_clip_duration_secs", mx), ("min_clip_duration_secs", mn),
             ("smoothing_width", v5), ("window_compare_pool_method", v6)] =
            some "min_clip_duration_secs must be less than or equal to max_clip_duration_secs" ∧
          check_valid_input_data d = .ok (some
            "min_clip_duration_secs must be less than or equal to max_clip_duration_secs",
            d)) ∧
       (check_data_existence_and_types d request_correct_types = Option.none →
        step_extension d = .ok (Option.none, d) →
        step_device d = .ok (Option.none, d) →
        step_whisperx d = .ok (Option.none, d) →
        ∃ v1 v2 v5 v6,
          dlookup d "cutoffPolicy" = some v1 ∧
          dlookup d "embeddingAggregationPoolMethod" = some v2 ∧
          dlookup d "smoothingWidth" = some v5 ∧
          dlookup d "windowComparePoolMethod" = some v6 ∧
          texttile_check_valid_config
            [("cutoff_policy", v1), ("embedding_aggregation_pool_method", v2),
             ("max_clip_duration_secs", mx), ("min_clip_duration_secs", mn),
             ("smoothing_width", v5), ("window_compare_pool_method", v6)] =
            some "min_clip_duration_secs must be less than or equal to max_clip_duration_secs" ∧
          check_valid_request_data d = .ok (some
            "min_clip_duration_secs must be less than or equal to max_clip_duration_secs",
            d))) := by
  intro d mn mx hmn hmx hlt
  constructor
  · intro hs hext hdev
    obtain ⟨v1, h1⟩ := spec_none_lookup hs
      (show ("cutoffPolicy", [PyType.pstr]) ∈ input_correct_types by decide)
      (by decide)
    obtain ⟨v2, h2⟩ := spec_none_lookup hs
      (show ("embeddingAggregationPoolMethod", [PyType.pstr]) ∈
        input_correct_types by decide) (by decide)
    obtain ⟨v5, h5⟩ := spec_none_lookup hs
      (show ("smoothingWidth", [PyType.pint]) ∈ input_correct_types by decide)
      (by decide)
    obtain ⟨v6, h6⟩ := spec_none_lookup hs
      (show ("windowComparePoolMethod", [PyType.pstr]) ∈
        input_correct_types by decide) (by decide)
    have t1 := spec_none_type hs
      (show ("cutoffPolicy", [PyType.pstr]) ∈ input_correct_types by decide) h1
    have t2 := spec_none_type hs
      (show ("embeddingAggregationPoolMethod", [PyType.pstr]) ∈
        input_correct_types by decide) h2
    have t3 := spec_none_type hs
      (show ("maxClipTime", [PyType.pfloat, PyType.pint]) ∈
        input_correct_types by decide) hmx
    have t4 := spec_none_type hs
      (show ("minClipTime", [PyType.pfloat, PyType.pint]) ∈
        input_correct_types by decide) hmn
    have t5 := spec_none_type hs
      (show ("smoothingWidth", [PyType.pint]) ∈ input_correct_types by decide) h5
    have t6 := spec_none_type hs
      (show ("windowComparePoolMethod", [PyType.pstr]) ∈
        input_correct_types by decide) h6
    have hrange := texttile_config_range_error t1 t2 t3 t4 t5 t6 hlt
    have htt := run_step_texttile_input h1 h2 hmx hmn h5 h6
    rw [hrange] at htt
    refine ⟨v1, v2, v5, v6, h1, h2, h5, h6, hrange, ?_⟩
    rw [check_input_eq_firstFailure,
      firstFailure_cons_none (by rw [run_step_types, hs]),
      firstFailure_cons_none hext,
      firstFailure_cons_none hdev,
      firstFailure_cons_some htt]
  · intro hs hext hdev hwh
    obtain ⟨v1, h1⟩ := spec_none_lookup hs
      (show ("cutoffPolicy", [PyType.pstr]) ∈ request_correct_types by decide)
      (by decide)
    obtain ⟨v2, h2⟩ := spec_none_lookup hs
      (show ("embeddingAggregationPoolMethod", [PyType.pstr]) ∈
        request_correct_types by decide) (by decide)
    obtain ⟨v5, h5⟩ := spec_none_lookup hs
      (show ("smoothingWidth", [PyType.pint]) ∈ request_correct_types by decide)
      (by decide)
    obtain ⟨v6, h6⟩ := spec_none_lookup hs
      (show ("windowComparePoolMethod", [PyType.pstr]) ∈
        request_correct_types by decide) (by decide)
    have t1 := spec_none_type hs
      (show ("cutoffPolicy", [PyType.pstr]) ∈ request_correct_types by decide) h1
    have t2 := spec_none_type hs
      (show ("embeddingAggregationPoolMethod", [PyType.pstr]) ∈
        request_correct_types by decide) h2
    have t3 := spec_none_type hs
      (show ("maxClipTime", [PyType.pfloat, PyType.pint]) ∈
        request_correct_types by decide) hmx
    have t4 := spec_none_type hs
      (show ("minClipTime", [PyType.pfloat, PyType.pint]) ∈
        request_correct_types by decide) hmn
    have t5 := spec_none_type hs
      (show ("smoothingWidth", [PyType.pint]) ∈ request_correct_types by decide) h5
    have t6 := spec_none_type hs
      (show ("windowComparePoolMethod", [PyType.pstr]) ∈
        request_correct_types by decide) h6
    have hrange := texttile_config_range_error t1 t2 t3 t4 t5 t6 hlt
    have htt := run_step_texttile_request h1 h2 hmx hmn h5 h6
    rw [hrange] at htt
    refine ⟨v1, v2, v5, v6, h1, h2, h5, h6, hrange, ?_⟩
    rw [check_request_eq_firstFailure,
      firstFailure_cons_none (by rw [run_step_types, hs]),
      firstFailure_cons_none hext,
      firstFailure_cons_none hdev,
      firstFailure_cons_none hwh,
      firstFailure_cons_some htt]

/-- Witness for C7: `minClipTime = 2000` against `maxClipTime = 900`. -/
theorem c7_witness :
    ∃ v1 v2 v5 v6,
      dlookup sample_min_gt_max_input "cutoffPolicy" = some v1 ∧
      dlookup sample_min_gt_max_input "embeddingAggregationPoolMethod" = some v2 ∧
      dlookup sample_min_gt_max_input "smoothingWidth" = some v5 ∧
      dlookup sample_min_gt_max_input "windowComparePoolMethod" = some v6 ∧
      texttile_check_valid_config
        [("cutoff_policy", v1), ("embedding_aggregation_pool_method", v2),
         ("max_clip_duration_secs", Value.int 900),
         ("min_clip_duration_secs", Value.int 2000),
         ("smoothing_width", v5), ("window_compare_pool_method", v6)] =
        some "min_clip_duration_secs must be less than or equal to max_clip_duration_secs" ∧
      check_valid_input_data sample_min_gt_max_input = .ok (some
        "min_clip_duration_secs must be less than or equal to max_clip_duration_secs",
        sample_min_gt_max_input) :=
  (c7_min_gt_max_range_error sample_min_gt_max_input (Value.int 2000)
    (Value.int 900) (by decide) (by decide) (by decide)).1
    (by decide) (by decide) (by decide)
